import Mathlib

/-!
Verification of ShinBot's permission decorators (`src/utils/decorators.py`)
and AI relay handler (`src/handlers/ai/chat.py`) against their
natural-language specification.

The Python code is shallowly embedded: every external call (chat platform
lookup, target extraction, usage logging, AI completion) is represented by
an oracle recorded in an environment structure, with an explicit
success/failure outcome for each call site.  A handler or decorator becomes
a total Lean function from its environment to a result recording the final
mutable state, the user-visible replies in order, how many times the wrapped
command body was invoked, and whether an exception escaped the wrapper
(`raised`).  Replies themselves are modelled as infallible output events.
-/

/-- Kinds of exception a platform call can raise, as distinguished by the
decorators: `pyrogram.errors.UserAdminInvalid` versus any other exception. -/
inductive ErrKind : Type where
  | userAdminInvalid : ErrKind
  | other : ErrKind
deriving DecidableEq, Repr

/-- Outcome of an awaited external call: a value, or a raised exception of
some kind. -/
inductive Res (α : Type) : Type where
  | ok (a : α) : Res α
  | err (e : ErrKind) : Res α
deriving DecidableEq, Repr

/-- Telegram chat types; the code only ever tests `chat.type.name.lower() == "private"`. -/
inductive ChatType : Type where
  | privateChat : ChatType
  | group : ChatType
  | supergroup : ChatType
  | channel : ChatType
deriving DecidableEq, Repr

/-- `pyrogram.enums.ChatMemberStatus`. -/
inductive MemberStatus : Type where
  | owner : MemberStatus
  | administrator : MemberStatus
  | member : MemberStatus
  | restricted : MemberStatus
  | left : MemberStatus
  | banned : MemberStatus
deriving DecidableEq, Repr

/-- A chat member record as consumed by the decorators: the nested user
identifier, the membership status, and the privilege object.
`privileges` is `none` when the Python attribute is `None` (falsy); when
present it is an association list mirroring `getattr(privileges, name, False)`:
a missing name reads as `False`. -/
structure Member : Type where
  userId : Int
  status : MemberStatus
  privileges : Option (List (String × Bool))
deriving DecidableEq, Repr

/-- `member.privileges and getattr(member.privileges, permission, False)` —
Python truthiness: a `None` privilege object short-circuits to false, and a
privilege name absent from the object reads as `False`. -/
def hasPriv (p : Option (List (String × Bool))) (perm : String) : Bool :=
  match p with
  | none => false
  | some l => (List.lookup perm l).getD false

/-- `status in [ChatMemberStatus.OWNER, ChatMemberStatus.ADMINISTRATOR]`. -/
def isAdminStatus (s : MemberStatus) : Bool :=
  match s with
  | .owner => true
  | .administrator => true
  | _ => false

/-- Oracle environment for one call to `check_admin_permissions(client, chat_id, user_id)`.
Each field is the outcome of the corresponding awaited platform call, at the
one call site where the function performs it:
`getChat` = `client.get_chat(chat_id)` (only the chat type is consumed);
`botMember` = `client.get_chat_member(chat_id, "me")`;
`userMember` = `client.get_chat_member(chat_id, user_id)` for the queried user;
`admins` = `client.get_chat_administrators(chat_id)`. -/
structure ChatEnv : Type where
  getChat : Res ChatType
  botMember : Res Member
  userMember : Res Member
  admins : Res (List Member)
deriving DecidableEq, Repr

/-- Lines 31–65 of `decorators.py`: the per-user branch of
`check_admin_permissions`, reached after the private-chat and bot-status
checks.  Direct lookup success answers by status; `UserAdminInvalid` answers
false; any other failure falls back to a linear scan of the administrator
list, which itself degrades to false on failure. -/
def checkUserPath (env : ChatEnv) (userId : Int) : Bool :=
  match env.userMember with
  | .ok m => isAdminStatus m.status
  | .err .userAdminInvalid => false
  | .err .other =>
    match env.admins with
    | .ok l => l.any (fun a => a.userId == userId)
    | .err _ => false

/-- `check_admin_permissions` (`decorators.py` lines 10–69).  The whole body
sits in a `try` whose `except` returns `False`, so a failing initial
`get_chat` yields false.  A private chat yields true immediately.  The bot's
own status is then checked: a successful fetch showing a non-admin bot
returns false, while a failed fetch is logged and ignored. -/
def check_admin_permissions (env : ChatEnv) (userId : Int) : Bool :=
  match env.getChat with
  | .err _ => false
  | .ok ct =>
    if ct = ChatType.privateChat then
      true
    else
      match env.botMember with
      | .ok bm =>
        if isAdminStatus bm.status then checkUserPath env userId else false
      | .err _ => checkUserPath env userId

/-- The bot-status precheck inside `check_admin_permissions` does not
short-circuit to false: either the fetch succeeded and showed an
owner/administrator bot, or the fetch itself failed (which the code treats
as non-fatal). -/
def botCheckPasses (env : ChatEnv) : Prop :=
  match env.botMember with
  | .ok bm => isAdminStatus bm.status = true
  | .err _ => True

/-- Result of running one gate-decorator wrapper on one inbound message:
how many times the wrapped command body was invoked, the replies the wrapper
itself sent (in order), and whether an exception escaped the wrapper
(`raised = true` means the exception propagated past the decorator). -/
structure GateRes (ρ : Type) : Type where
  bodyCalls : Nat
  replies : List ρ
  raised : Bool
deriving DecidableEq, Repr

/-- Replies the `admin_only` wrapper can send. -/
inductive AOReply : Type where
  | needBotPerm : AOReply
  | cantVerifyBot : AOReply
  | adminsOnly : AOReply
  | genericError : AOReply
deriving DecidableEq, Repr

/-- Oracle environment for one `admin_only` invocation.  `getChat` and
`botMember` are the wrapper's own platform calls (`decorators.py` lines
77 and 80); `adminEnv` is the environment of the nested
`check_admin_permissions` call, whose platform calls are separate;
`bodyRaises` says whether the wrapped body, if invoked, raises. -/
structure AOEnv : Type where
  getChat : Res ChatType
  botMember : Res Member
  adminEnv : ChatEnv
  bodyRaises : Bool
deriving DecidableEq, Repr

/-- Lines 89–95 of `decorators.py`: the tail of the `admin_only` wrapper
after the bot check — resolve the invoking user via
`check_admin_permissions`, reject non-admins, otherwise invoke the body;
a body exception is caught by the wrapper's outer `except`, which sends the
generic error reply and returns. -/
def admin_only_userCheck (env : AOEnv) (userId : Int) : GateRes AOReply :=
  if check_admin_permissions env.adminEnv userId then
    if env.bodyRaises then ⟨1, [AOReply.genericError], false⟩
    else ⟨1, [], false⟩
  else ⟨0, [AOReply.adminsOnly], false⟩

/-- `admin_only` (`decorators.py` lines 71–102).  The whole wrapper body is
inside `try ... except Exception`, so a failing `get_chat` is converted to
the generic error reply.  In non-private chats the bot's own status is
checked first, with its own inner `try`: a failed fetch yields the
cannot-verify reply, a non-admin bot the bot-permission reply. -/
def admin_only (env : AOEnv) (userId : Int) : GateRes AOReply :=
  match env.getChat with
  | .err _ => ⟨0, [AOReply.genericError], false⟩
  | .ok ct =>
    if ct = ChatType.privateChat then admin_only_userCheck env userId
    else
      match env.botMember with
      | .err _ => ⟨0, [AOReply.cantVerifyBot], false⟩
      | .ok bm =>
        if isAdminStatus bm.status then admin_only_userCheck env userId
        else ⟨0, [AOReply.needBotPerm], false⟩

/-- Replies the `protect_admins` wrapper can send. -/
inductive PAReply : Type where
  | selfAction : PAReply
  | adminTarget : PAReply
deriving DecidableEq, Repr

/-- Oracle environment for one `protect_admins` invocation.
`getChat` = `client.get_chat(message.chat.id)`; `extract` = the
`extract_user_and_reason` collaborator, returning the target user's
identifier or `none` when no target is found; `adminEnv` is the environment
of the nested `check_admin_permissions` call on the target. -/
structure PAEnv : Type where
  getChat : Res ChatType
  extract : Res (Option Int)
  adminEnv : ChatEnv
deriving DecidableEq, Repr

/-- `protect_admins` (`decorators.py` lines 104–139).  The wrapper contains
no `try`/`except`: a failure of the chat lookup or of target extraction
propagates out of the wrapper (`raised = true`).  Otherwise: private chats
and missing targets delegate to the body; a self-target is rejected before
any admin check; an admin target is rejected; anything else delegates. -/
def protect_admins (env : PAEnv) (invokerId : Int) : GateRes PAReply :=
  match env.getChat with
  | .err _ => ⟨0, [], true⟩
  | .ok ct =>
    if ct = ChatType.privateChat then ⟨1, [], false⟩
    else
      match env.extract with
      | .err _ => ⟨0, [], true⟩
      | .ok none => ⟨1, [], false⟩
      | .ok (some targetId) =>
        if targetId == invokerId then ⟨0, [PAReply.selfAction], false⟩
        else if check_admin_permissions env.adminEnv targetId then
          ⟨0, [PAReply.adminTarget], false⟩
        else ⟨1, [], false⟩

/-- Replies the `require_permission` wrapper can send; `needPermission`
carries the privilege name interpolated into the message text. -/
inductive RPReply : Type where
  | needBotPerm : RPReply
  | cantVerifyBot : RPReply
  | needPermission (p : String) : RPReply
  | adminsOnly : RPReply
  | cantVerifyYou : RPReply
  | genericError : RPReply
deriving DecidableEq, Repr

/-- Oracle environment for one `require_permission(name)` invocation.
`chatType` is read from `message.chat` (an attribute access, not a platform
call, hence infallible); `botMember`, `userMember` and `admins` are the
outcomes of the wrapper's three possible platform calls; `userId` is
`message.from_user.id`. -/
structure RPEnv : Type where
  chatType : ChatType
  botMember : Res Member
  userMember : Res Member
  admins : Res (List Member)
  userId : Int
deriving DecidableEq, Repr

/-- Lines 183–193 of `decorators.py`: the fallback loop of
`require_permission` over the administrator list.  The first entry whose
nested user identifier matches decides: owners delegate, a truthy named
privilege delegates, otherwise the missing-permission reply; if no entry
matches, the administrators-only reply. -/
def require_permission_scan (l : List Member) (userId : Int) (perm : String) :
    GateRes RPReply :=
  match l with
  | [] => ⟨0, [RPReply.adminsOnly], false⟩
  | a :: rest =>
    if a.userId == userId then
      if a.status = MemberStatus.owner then ⟨1, [], false⟩
      else if hasPriv a.privileges perm then ⟨1, [], false⟩
      else ⟨0, [RPReply.needPermission perm], false⟩
    else require_permission_scan rest userId perm

/-- `require_permission(permission)` (`decorators.py` lines 141–199).
Private chats delegate immediately.  The bot check mirrors `admin_only`.
The direct lookup of the invoker then decides: owner delegates,
administrator delegates iff the named privilege is truthy, any other status
is rejected; `UserAdminInvalid` yields the cannot-verify reply with no
fallback; any other lookup failure falls back to the administrator-list
scan, whose own failure yields the generic error reply. -/
def require_permission (perm : String) (env : RPEnv) : GateRes RPReply :=
  if env.chatType = ChatType.privateChat then ⟨1, [], false⟩
  else
    match env.botMember with
    | .err _ => ⟨0, [RPReply.cantVerifyBot], false⟩
    | .ok bm =>
      if isAdminStatus bm.status then
        match env.userMember with
        | .ok m =>
          if m.status = MemberStatus.owner then ⟨1, [], false⟩
          else if m.status = MemberStatus.administrator then
            if hasPriv m.privileges perm then ⟨1, [], false⟩
            else ⟨0, [RPReply.needPermission perm], false⟩
          else ⟨0, [RPReply.adminsOnly], false⟩
        | .err .userAdminInvalid => ⟨0, [RPReply.cantVerifyYou], false⟩
        | .err .other =>
          match env.admins with
          | .ok l => require_permission_scan l env.userId perm
          | .err _ => ⟨0, [RPReply.genericError], false⟩
      else ⟨0, [RPReply.needBotPerm], false⟩

/-- Fuel-driven worker for `removeAll`.  Each scanning step consumes one
unit of fuel and shortens the subject list by at least one character (by
`pat.length ≥ 1` on a match, by one otherwise), so fuel equal to the
subject's length is always sufficient and the out-of-fuel branch is
unreachable from `removeAll`. -/
def removeAllGo (pat : List Char) : Nat → List Char → List Char
  | _, [] => []
  | 0, s => s
  | fuel + 1, c :: rest =>
    if pat ≠ [] ∧ (c :: rest).take pat.length = pat then
      removeAllGo pat fuel ((c :: rest).drop pat.length)
    else
      c :: removeAllGo pat fuel rest

/-- Python `str.replace(pat, "")`: delete every non-overlapping occurrence
of `pat`, scanning left to right.  The `pat ≠ []` guard makes the function
total; both call sites in `chat.py` pass a non-empty literal. -/
def removeAll (pat : List Char) (s : List Char) : List Char :=
  removeAllGo pat s.length s

/-- Whitespace as stripped by Python `str.strip()` on ASCII text. -/
def isPySpace (c : Char) : Bool :=
  c = ' ' || c = '\t' || c = '\n' || c = '\x0d' || c = '\x0b' || c = '\x0c'

/-- Python `str.strip()`: drop leading and trailing whitespace. -/
def pyStrip (s : List Char) : List Char :=
  ((s.dropWhile isPySpace).reverse.dropWhile isPySpace).reverse

/-- `chat.py` line 84: `[response_text[i : i + limit] for i in range(0, len(response_text), limit)]`
with `limit = 4000` — consecutive 4000-unit segments of the response text in
original order (the last one possibly shorter). -/
def splitChunks : List Char → List (List Char)
  | [] => []
  | c :: rest => (c :: rest).take 4000 :: splitChunks ((c :: rest).drop 4000)
termination_by s => s.length
decreasing_by
  simp only [List.length_drop, List.length_cons]
  omega

/-- Lines 82–89 of `chat.py`: the bodies of the response replies the handler
sends on success — the chunks when the text exceeds the 4000-unit limit,
otherwise the whole text as a single reply.  (The code prepends a fixed
model-name banner to each reply; the body here is the per-reply segment of
the response text.) -/
def responseReplies (text : List Char) : List (List Char) :=
  if text.length > 4000 then splitChunks text else [text]

/-- User-visible replies `gemini_command` can send, in order of appearance
in the source: the single-flight wait notice (line 32), the empty-prompt
usage hint (line 40), the interim working message (line 44), one response
segment (lines 86 and 89, carrying its body), and the generic error reply
of the `except` handler (line 94). -/
inductive GReply : Type where
  | waitNotice : GReply
  | usageHint : GReply
  | working : GReply
  | part (body : List Char) : GReply
  | errorReply : GReply
deriving DecidableEq, Repr

/-- Result of one `gemini_command` invocation: the final contents of the
module-level `active_gemini_requests` set, how many times the AI backend
call was issued, the replies sent in order, and whether an exception
escaped the handler. -/
structure GemResult : Type where
  state : Finset Int
  aiCalls : Nat
  replies : List GReply
  raised : Bool
deriving DecidableEq

/-- Oracle environment for one `gemini_command` invocation.  Each field is
the outcome of the corresponding awaited call: `saveUsageOk` — whether
`save_usage` returns normally; `messageText` — `message.text`;
`botUsername` — the configured `BOT_USERNAME`; `workingOk` — whether the
interim "Wait a moment..." reply send returns normally; `aiResult` — the AI
backend call, yielding the response text or raising; `sendFailsAt` — the
index of the first response-segment send that raises (`none` when all
succeed); `deleteOk` — whether deleting the interim message returns
normally; `errorReplyOk` — whether the `except` handler's own reply send
returns normally. -/
structure GeminiEnv : Type where
  saveUsageOk : Bool
  messageText : List Char
  botUsername : List Char
  workingOk : Bool
  aiResult : Res (List Char)
  sendFailsAt : Option Nat
  deleteOk : Bool
  errorReplyOk : Bool
deriving DecidableEq, Repr

/-- `chat.py` line 38: `message.text.replace("/gemini", "").replace(f"@{BOT_USERNAME}", "").strip()`. -/
def geminiPrompt (env : GeminiEnv) : List Char :=
  pyStrip (removeAll ('@' :: env.botUsername) (removeAll "/gemini".toList env.messageText))

/-- The `except Exception` handler of `gemini_command` (lines 92–94): the
replies already sent, followed by the generic error reply when that reply
itself succeeds.  When it raises, the exception propagates (after the
`finally` has run). -/
def geminiExceptReplies (sent : List GReply) (errorReplyOk : Bool) : List GReply :=
  sent ++ (if errorReplyOk then [GReply.errorReply] else [])

/-- The tail of the success path of `gemini_command` once all response
segments have been sent (lines 91–96): delete the interim message; a
failing delete is caught by the `except` handler; the `finally` always
discards the chat identifier. -/
def geminiFinishSend (erased : Finset Int) (parts : List (List Char))
    (deleteOk errorReplyOk : Bool) : GemResult :=
  if deleteOk then
    ⟨erased, 1, GReply.working :: parts.map GReply.part, false⟩
  else
    ⟨erased, 1, geminiExceptReplies (GReply.working :: parts.map GReply.part) errorReplyOk,
      !errorReplyOk⟩

/-- `gemini_command` (`chat.py` lines 26–96), as a state transformer on the
module-level `active_gemini_requests` set.  A chat identifier already in
the set is answered with the wait notice only (lines 31–33).  Otherwise the
identifier is added (line 34) and `save_usage` is awaited (line 36) before
the `try` block is entered: an exception there propagates with no `finally`
to discard the identifier.  Inside the `try`, every exit path — empty
prompt, interim-reply failure, AI failure, a failing segment send, a
failing delete — runs the `except` handler where applicable and always the
`finally`, which discards the identifier. -/
def gemini_command (env : GeminiEnv) (chatId : Int) (s : Finset Int) : GemResult :=
  if chatId ∈ s then
    ⟨s, 0, [GReply.waitNotice], false⟩
  else
    let s1 : Finset Int := insert chatId s
    if env.saveUsageOk = false then
      ⟨s1, 0, [], true⟩
    else if geminiPrompt env = [] then
      ⟨s1.erase chatId, 0, [GReply.usageHint], false⟩
    else if env.workingOk = false then
      ⟨s1.erase chatId, 0, geminiExceptReplies [] env.errorReplyOk, !env.errorReplyOk⟩
    else
      match env.aiResult with
      | .err _ =>
        ⟨s1.erase chatId, 1, geminiExceptReplies [GReply.working] env.errorReplyOk,
          !env.errorReplyOk⟩
      | .ok text =>
        let parts := responseReplies text
        match env.sendFailsAt with
        | some i =>
          if i < parts.length then
            ⟨s1.erase chatId, 1,
              geminiExceptReplies (GReply.working :: (parts.take i).map GReply.part)
                env.errorReplyOk,
              !env.errorReplyOk⟩
          else geminiFinishSend (s1.erase chatId) parts env.deleteOk env.errorReplyOk
        | none => geminiFinishSend (s1.erase chatId) parts env.deleteOk env.errorReplyOk

/-- The bodies of the response-segment replies among a reply list, in
order: the payloads of the `part` replies. -/
def partBodies : List GReply → List (List Char)
  | [] => []
  | GReply.part b :: rest => b :: partBodies rest
  | GReply.waitNotice :: rest => partBodies rest
  | GReply.usageHint :: rest => partBodies rest
  | GReply.working :: rest => partBodies rest
  | GReply.errorReply :: rest => partBodies rest

/-! ## Helper lemmas -/

/-- Reduce `check_admin_permissions` to its per-user branch once the chat is
known to be non-private and the bot-status precheck does not short-circuit. -/
lemma check_admin_eq_userPath (env : ChatEnv) (uid : Int) (ct : ChatType)
    (hct : env.getChat = Res.ok ct) (hnp : ct ≠ ChatType.privateChat)
    (hbot : botCheckPasses env) :
    check_admin_permissions env uid = checkUserPath env uid := by
  simp only [check_admin_permissions, hct]
  rw [if_neg hnp]
  cases hbm : env.botMember with
  | ok bm =>
    have hb : isAdminStatus bm.status = true := by
      simpa [botCheckPasses, hbm] using hbot
    simp [hb]
  | err e => rfl

/-- The administrator-list fallback loop of `require_permission` never lets
an exception escape. -/
lemma require_permission_scan_not_raised (l : List Member) (uid : Int) (perm : String) :
    (require_permission_scan l uid perm).raised = false := by
  induction l with
  | nil => rfl
  | cons a rest ih =>
    unfold require_permission_scan
    split
    · split
      · rfl
      · split <;> rfl
    · exact ih

/-- The fallback loop decides by the first administrator entry whose nested
user identifier matches: owners delegate, a truthy named privilege
delegates, otherwise the missing-permission reply. -/
lemma require_permission_scan_found (l : List Member) (uid : Int) (perm : String)
    (a : Member) (hfind : List.find? (fun x => x.userId == uid) l = some a) :
    require_permission_scan l uid perm =
      (if a.status = MemberStatus.owner then ⟨1, [], false⟩
       else if hasPriv a.privileges perm then ⟨1, [], false⟩
       else ⟨0, [RPReply.needPermission perm], false⟩) := by
  induction l with
  | nil => simp at hfind
  | cons b rest ih =>
    rw [List.find?_cons] at hfind
    unfold require_permission_scan
    by_cases hb : b.userId == uid
    · rw [hb] at hfind
      simp only [Option.some.injEq] at hfind
      rw [if_pos hb, hfind]
    · rw [Bool.not_eq_true] at hb
      rw [hb] at hfind
      rw [if_neg (by simp [hb])]
      exact ih hfind

/-- When no administrator entry matches, the fallback loop falls through to
the administrators-only rejection. -/
lemma require_permission_scan_not_found (l : List Member) (uid : Int) (perm : String)
    (hfind : List.find? (fun x => x.userId == uid) l = none) :
    require_permission_scan l uid perm = ⟨0, [RPReply.adminsOnly], false⟩ := by
  induction l with
  | nil => rfl
  | cons b rest ih =>
    rw [List.find?_cons] at hfind
    unfold require_permission_scan
    by_cases hb : b.userId == uid
    · rw [hb] at hfind; simp at hfind
    · rw [Bool.not_eq_true] at hb
      rw [hb] at hfind
      rw [if_neg (by simp [hb])]
      exact ih hfind

/-! ## Claim C3 -/

/-- Environment refuting claim C3 as stated: a non-private chat whose
direct per-user lookup succeeds with status administrator, but whose bot is
a plain member. -/
def c3Env : ChatEnv :=
  ⟨Res.ok ChatType.group, Res.ok ⟨0, MemberStatus.member, none⟩,
    Res.ok ⟨10, MemberStatus.administrator, none⟩, Res.ok [⟨10, MemberStatus.administrator, none⟩]⟩

/-- C3 counterexample: in a non-private chat, a user whose membership status
is administrator is nonetheless reported as non-admin when the bot's own
fetched status is not owner/administrator — `check_admin_permissions`
short-circuits to false at the bot check (`decorators.py` lines 22–27), so
the claim as stated is false. -/
theorem check_admin_bot_gate_counterexample :
    c3Env.getChat = Res.ok ChatType.group ∧
    c3Env.userMember = Res.ok ⟨10, MemberStatus.administrator, none⟩ ∧
    check_admin_permissions c3Env 10 = false := by
  decide

/-- C3 (amended): in every non-private chat, provided the bot-status
precheck does not short-circuit (the bot's fetched status is
owner/administrator, or that fetch itself fails), `check_admin_permissions`
returns true exactly for users of status owner or administrator and false
for every other status — both through the direct per-user lookup path and
through the administrator-list fallback path taken when the direct lookup
fails with an error other than `UserAdminInvalid`, assuming the
administrator list is consistent with the user's status. -/
theorem check_admin_status_correct (env : ChatEnv) (uid : Int) (ct : ChatType)
    (m : Member) (hct : env.getChat = Res.ok ct) (hnp : ct ≠ ChatType.privateChat)
    (hbot : botCheckPasses env) (_hid : m.userId = uid) :
    (env.userMember = Res.ok m →
       check_admin_permissions env uid = isAdminStatus m.status) ∧
    (∀ l, env.userMember = Res.err ErrKind.other → env.admins = Res.ok l →
       (isAdminStatus m.status = true ↔ ∃ a ∈ l, a.userId = uid) →
       check_admin_permissions env uid = isAdminStatus m.status) := by
  constructor
  · intro hm
    rw [check_admin_eq_userPath env uid ct hct hnp hbot]
    unfold checkUserPath
    rw [hm]
  · intro l hm hl hiff
    rw [check_admin_eq_userPath env uid ct hct hnp hbot]
    unfold checkUserPath
    rw [hm, hl]
    cases hs : isAdminStatus m.status with
    | true =>
      obtain ⟨a, ha, haid⟩ := hiff.mp hs
      rw [List.any_eq_true]
      exact ⟨a, ha, by simp [haid]⟩
    | false =>
      rw [List.any_eq_false]
      intro a ha hcontra
      rw [beq_iff_eq] at hcontra
      have := hiff.mpr ⟨a, ha, hcontra⟩
      rw [hs] at this
      exact Bool.false_ne_true this

/-- Witness for C3 (amended), direct path: an owner in a group chat with an
administrator bot is reported as admin. -/
theorem check_admin_status_correct_witness :
    check_admin_permissions
      ⟨Res.ok ChatType.group, Res.ok ⟨0, MemberStatus.administrator, none⟩,
        Res.ok ⟨10, MemberStatus.owner, none⟩, Res.ok []⟩ 10 =
      isAdminStatus MemberStatus.owner :=
  (check_admin_status_correct
    ⟨Res.ok ChatType.group, Res.ok ⟨0, MemberStatus.administrator, none⟩,
      Res.ok ⟨10, MemberStatus.owner, none⟩, Res.ok []⟩
    10 ChatType.group ⟨10, MemberStatus.owner, none⟩ rfl (by decide) rfl rfl).1 rfl

/-! ## Claim C9 -/

/-- C9: `check_admin_permissions` is total on its oracle environment — for
every combination of collaborator-call outcomes it returns a boolean — and
a failure of the initial chat-type fetch (the top-level `try`'s first call)
yields false, fail-closed. -/
theorem check_admin_total_fail_closed (env : ChatEnv) (uid : Int) :
    (check_admin_permissions env uid = true ∨ check_admin_permissions env uid = false) ∧
    (∀ e, env.getChat = Res.err e → check_admin_permissions env uid = false) := by
  constructor
  · exact Bool.eq_false_or_eq_true _
  · intro e he
    unfold check_admin_permissions
    rw [he]

/-- Witness for C9: with every collaborator call failing,
`check_admin_permissions` returns false. -/
theorem check_admin_total_fail_closed_witness :
    check_admin_permissions
      ⟨Res.err ErrKind.other, Res.err ErrKind.other, Res.err ErrKind.other,
        Res.err ErrKind.other⟩ 0 = false :=
  (check_admin_total_fail_closed
    ⟨Res.err ErrKind.other, Res.err ErrKind.other, Res.err ErrKind.other,
      Res.err ErrKind.other⟩ 0).2 ErrKind.other rfl

/-! ## Claim C6 -/

/-- C6: in every non-private chat where the wrapper reaches the direct
membership lookup of the invoking user (the bot check passed) and the
lookup succeeds, `require_permission(perm)` delegates to the wrapped body
when the user's status is owner; for an administrator it delegates exactly
when the named privilege flag is truthy and otherwise replies naming that
privilege; and for every other status it replies with the
administrators-only rejection (`decorators.py` lines 161–175). -/
theorem require_permission_direct_path (perm : String) (env : RPEnv) (m bm : Member)
    (hnp : env.chatType ≠ ChatType.privateChat)
    (hbm : env.botMember = Res.ok bm) (hba : isAdminStatus bm.status = true)
    (hm : env.userMember = Res.ok m) :
    (m.status = MemberStatus.owner → require_permission perm env = ⟨1, [], false⟩) ∧
    (m.status = MemberStatus.administrator →
       (hasPriv m.privileges perm = true → require_permission perm env = ⟨1, [], false⟩) ∧
       (hasPriv m.privileges perm = false →
          require_permission perm env = ⟨0, [RPReply.needPermission perm], false⟩)) ∧
    (m.status ≠ MemberStatus.owner → m.status ≠ MemberStatus.administrator →
       require_permission perm env = ⟨0, [RPReply.adminsOnly], false⟩) := by
  have hbase :
      require_permission perm env =
        (if m.status = MemberStatus.owner then ⟨1, [], false⟩
         else if m.status = MemberStatus.administrator then
           (if hasPriv m.privileges perm then ⟨1, [], false⟩
            else ⟨0, [RPReply.needPermission perm], false⟩)
         else ⟨0, [RPReply.adminsOnly], false⟩) := by
    simp only [require_permission, if_neg hnp, hbm, hba, if_true, hm]
  refine ⟨?_, ?_, ?_⟩
  · intro h
    rw [hbase, if_pos h]
  · intro h
    constructor
    · intro hp
      rw [hbase, if_neg (by simp [h]), if_pos h, if_pos hp]
    · intro hp
      rw [hbase, if_neg (by simp [h]), if_pos h, if_neg (by simp [hp])]
  · intro h1 h2
    rw [hbase, if_neg h1, if_neg h2]

/-- Witness for C6: an administrator whose privilege object carries a truthy
`ban_members` flag is allowed through. -/
theorem require_permission_direct_path_witness :
    require_permission "ban_members"
      ⟨ChatType.group, Res.ok ⟨0, MemberStatus.administrator, none⟩,
        Res.ok ⟨10, MemberStatus.administrator, some [("ban_members", true)]⟩,
        Res.ok [], 10⟩ = ⟨1, [], false⟩ :=
  ((require_permission_direct_path "ban_members"
      ⟨ChatType.group, Res.ok ⟨0, MemberStatus.administrator, none⟩,
        Res.ok ⟨10, MemberStatus.administrator, some [("ban_members", true)]⟩,
        Res.ok [], 10⟩
      ⟨10, MemberStatus.administrator, some [("ban_members", true)]⟩
      ⟨0, MemberStatus.administrator, none⟩
      (by decide) rfl rfl rfl).2.1 rfl).1 (by decide)

/-! ## Claim C7 -/

/-- Environment refuting claim C7 as stated: the direct lookup of the
invoking user fails with `UserAdminInvalid`, while the administrator list —
which the claimed fallback would consult — lists that user as owner. -/
def c7Env : RPEnv :=
  ⟨ChatType.group, Res.ok ⟨0, MemberStatus.administrator, none⟩,
    Res.err ErrKind.userAdminInvalid, Res.ok [⟨10, MemberStatus.owner, none⟩], 10⟩

/-- C7 counterexample: on a `UserAdminInvalid` failure of the direct lookup
`require_permission` does not fall back to the administrator list — it
sends the cannot-verify reply and stops (`decorators.py` lines 177–178),
even though the fallback scan on the same environment would have delegated
to the body.  The claim as stated (fallback on every lookup failure,
including this kind) is therefore false. -/
theorem require_permission_uai_counterexample :
    require_permission "ban_members" c7Env = ⟨0, [RPReply.cantVerifyYou], false⟩ ∧
    require_permission_scan [⟨10, MemberStatus.owner, none⟩] 10 "ban_members" =
      ⟨1, [], false⟩ := by
  decide

/-- C7 (amended): when the direct membership lookup of the invoking user
fails with any error other than the `UserAdminInvalid` kind, the gate falls
back to scanning the full administrator list, applying the same
owner/privilege logic to the first matching entry (owners delegate, a
truthy named privilege delegates, otherwise a reply naming the privilege;
no matching entry yields the administrators-only reply); if that fallback
enumeration itself fails, the gate replies with a generic error message.  A
`UserAdminInvalid` failure instead yields the cannot-verify reply with no
fallback. -/
theorem require_permission_fallback (perm : String) (env : RPEnv) (bm : Member)
    (hnp : env.chatType ≠ ChatType.privateChat)
    (hbm : env.botMember = Res.ok bm) (hba : isAdminStatus bm.status = true) :
    (env.userMember = Res.err ErrKind.other →
       (∀ l, env.admins = Res.ok l →
          require_permission perm env = require_permission_scan l env.userId perm) ∧
       (∀ e, env.admins = Res.err e →
          require_permission perm env = ⟨0, [RPReply.genericError], false⟩)) ∧
    (env.userMember = Res.err ErrKind.userAdminInvalid →
       require_permission perm env = ⟨0, [RPReply.cantVerifyYou], false⟩) ∧
    (∀ l a, List.find? (fun x => x.userId == env.userId) l = some a →
       require_permission_scan l env.userId perm =
         (if a.status = MemberStatus.owner then ⟨1, [], false⟩
          else if hasPriv a.privileges perm then ⟨1, [], false⟩
          else ⟨0, [RPReply.needPermission perm], false⟩)) ∧
    (∀ l, List.find? (fun x => x.userId == env.userId) l = none →
       require_permission_scan l env.userId perm = ⟨0, [RPReply.adminsOnly], false⟩) := by
  refine ⟨?_, ?_, ?_, ?_⟩
  · intro hm
    constructor
    · intro l hl
      simp only [require_permission, if_neg hnp, hbm, hba, if_true, hm, hl]
    · intro e hl
      simp only [require_permission, if_neg hnp, hbm, hba, if_true, hm, hl]
  · intro hm
    simp only [require_permission, if_neg hnp, hbm, hba, if_true, hm]
  · intro l a hfind
    exact require_permission_scan_found l env.userId perm a hfind
  · intro l hfind
    exact require_permission_scan_not_found l env.userId perm hfind

/-- Witness for C7 (amended): a non-`UserAdminInvalid` lookup failure with a
failing administrator enumeration yields the generic error reply. -/
theorem require_permission_fallback_witness :
    require_permission "ban_members"
      ⟨ChatType.group, Res.ok ⟨0, MemberStatus.administrator, none⟩,
        Res.err ErrKind.other, Res.err ErrKind.other, 10⟩ =
      ⟨0, [RPReply.genericError], false⟩ :=
  ((require_permission_fallback "ban_members"
      ⟨ChatType.group, Res.ok ⟨0, MemberStatus.administrator, none⟩,
        Res.err ErrKind.other, Res.err ErrKind.other, 10⟩
      ⟨0, MemberStatus.administrator, none⟩
      (by decide) rfl rfl).1 rfl).2 ErrKind.other rfl

/-! ## Claim C8 -/

/-- C8: in every non-private chat where target extraction succeeds,
`protect_admins` rejects with the self-action message whenever the target's
identifier equals the invoker's, regardless of either party's admin status
(the nested admin environment is arbitrary); rejects with the admin-target
message whenever the extracted target is resolved as an admin by
`check_admin_permissions`; otherwise invokes the wrapped body exactly once;
and when no target is extracted it also invokes the body exactly once
(`decorators.py` lines 111–137). -/
theorem protect_admins_behavior (env : PAEnv) (invokerId : Int) (ct : ChatType)
    (hct : env.getChat = Res.ok ct) (hnp : ct ≠ ChatType.privateChat) :
    (∀ targetId, env.extract = Res.ok (some targetId) →
       (targetId = invokerId →
          protect_admins env invokerId = ⟨0, [PAReply.selfAction], false⟩) ∧
       (targetId ≠ invokerId → check_admin_permissions env.adminEnv targetId = true →
          protect_admins env invokerId = ⟨0, [PAReply.adminTarget], false⟩) ∧
       (targetId ≠ invokerId → check_admin_permissions env.adminEnv targetId = false →
          protect_admins env invokerId = ⟨1, [], false⟩)) ∧
    (env.extract = Res.ok none → protect_admins env invokerId = ⟨1, [], false⟩) := by
  constructor
  · intro targetId hex
    refine ⟨?_, ?_, ?_⟩
    · intro heq
      simp [protect_admins, hct, hnp, hex, heq]
    · intro hne hadm
      simp [protect_admins, hct, hnp, hex, hne, hadm]
    · intro hne hadm
      simp [protect_admins, hct, hnp, hex, hne, hadm]
  · intro hex
    simp [protect_admins, hct, hnp, hex]

/-- Witness for C8: an invoker targeting themselves is rejected with the
self-action reply even though the nested admin check would resolve the
target as a non-admin. -/
theorem protect_admins_behavior_witness :
    protect_admins
      ⟨Res.ok ChatType.group, Res.ok (some 7),
        ⟨Res.ok ChatType.group, Res.ok ⟨0, MemberStatus.administrator, none⟩,
          Res.ok ⟨7, MemberStatus.member, none⟩, Res.ok []⟩⟩ 7 =
      ⟨0, [PAReply.selfAction], false⟩ :=
  (((protect_admins_behavior
      ⟨Res.ok ChatType.group, Res.ok (some 7),
        ⟨Res.ok ChatType.group, Res.ok ⟨0, MemberStatus.administrator, none⟩,
          Res.ok ⟨7, MemberStatus.member, none⟩, Res.ok []⟩⟩ 7 ChatType.group
      rfl (by decide)).1 7 rfl).1) rfl

/-! ## Claim C10 -/

/-- C10: in `admin_only`, the call to the wrapped body sits inside the
wrapper's `try ... except Exception` (`decorators.py` line 95 within lines
75–100): whenever every permission check passes and the body raises, the
wrapper catches the exception, sends the generic unexpected-error reply,
and returns instead of propagating — the body was invoked exactly once,
the only wrapper reply is the generic error, and nothing escapes. -/
theorem admin_only_body_exception_caught (env : AOEnv) (userId : Int) (ct : ChatType)
    (hct : env.getChat = Res.ok ct)
    (hbot : ct = ChatType.privateChat ∨
      ∃ bm, env.botMember = Res.ok bm ∧ isAdminStatus bm.status = true)
    (hadm : check_admin_permissions env.adminEnv userId = true)
    (hbody : env.bodyRaises = true) :
    admin_only env userId = ⟨1, [AOReply.genericError], false⟩ := by
  have huser : admin_only_userCheck env userId = ⟨1, [AOReply.genericError], false⟩ := by
    simp [admin_only_userCheck, hadm, hbody]
  rcases hbot with hpriv | ⟨bm, hbm, hba⟩
  · simp [admin_only, hct, hpriv, huser]
  · by_cases hpriv : ct = ChatType.privateChat
    · simp [admin_only, hct, hpriv, huser]
    · simp [admin_only, hct, hpriv, hbm, hba, huser]

/-- Witness for C10: in a private chat with a passing resolver, a raising
body is converted to the generic error reply after exactly one body call. -/
theorem admin_only_body_exception_caught_witness :
    admin_only
      ⟨Res.ok ChatType.privateChat, Res.err ErrKind.other,
        ⟨Res.ok ChatType.privateChat, Res.err ErrKind.other, Res.err ErrKind.other,
          Res.err ErrKind.other⟩, true⟩ 3 =
      ⟨1, [AOReply.genericError], false⟩ :=
  admin_only_body_exception_caught
    ⟨Res.ok ChatType.privateChat, Res.err ErrKind.other,
      ⟨Res.ok ChatType.privateChat, Res.err ErrKind.other, Res.err ErrKind.other,
        Res.err ErrKind.other⟩, true⟩ 3 ChatType.privateChat
    rfl (Or.inl rfl) rfl rfl

/-! ## Claim C4 -/

/-- Environment showing `protect_admins` propagating a chat-lookup failure. -/
def c4EnvA : PAEnv :=
  ⟨Res.err ErrKind.other, Res.ok none,
    ⟨Res.ok ChatType.group, Res.err ErrKind.other, Res.err ErrKind.other,
      Res.err ErrKind.other⟩⟩

/-- Environment showing `protect_admins` propagating a target-extraction
failure in a non-private chat. -/
def c4EnvB : PAEnv :=
  ⟨Res.ok ChatType.group, Res.err ErrKind.other,
    ⟨Res.ok ChatType.group, Res.err ErrKind.other, Res.err ErrKind.other,
      Res.err ErrKind.other⟩⟩

/-- C4 counterexample: the `protect_admins` wrapper contains no exception
handler (`decorators.py` lines 110–137), so a failing `get_chat` platform
lookup, and likewise a failing `extract_user_and_reason` call, propagate
out past the gate wrapper — refuting the claim that every gate converts
such failures to a reply or return. -/
theorem protect_admins_propagates_counterexample :
    (protect_admins c4EnvA 3).raised = true ∧
    (protect_admins c4EnvB 3).raised = true := by
  decide

/-- C4 (amended): `admin_only` and `require_permission` catch every failure
of their platform lookups inside the wrapper and convert it to a reply or
return — no combination of collaborator-call outcomes makes an exception
escape them; `protect_admins`, by contrast, lets a failure escape exactly
when its chat lookup fails or, in a non-private chat, its target extraction
fails. -/
theorem gate_exception_containment (aenv : AOEnv) (userId : Int) (perm : String)
    (renv : RPEnv) (penv : PAEnv) (invokerId : Int) :
    (admin_only aenv userId).raised = false ∧
    (require_permission perm renv).raised = false ∧
    ((protect_admins penv invokerId).raised = true ↔
       (∃ e, penv.getChat = Res.err e) ∨
       (∃ ct, penv.getChat = Res.ok ct ∧ ct ≠ ChatType.privateChat ∧
          ∃ e, penv.extract = Res.err e)) := by
  refine ⟨?_, ?_, ?_⟩
  · have huc : (admin_only_userCheck aenv userId).raised = false := by
      unfold admin_only_userCheck
      split
      · split <;> rfl
      · rfl
    unfold admin_only
    split
    · rfl
    · split
      · exact huc
      · split
        · rfl
        · split
          · exact huc
          · rfl
  · unfold require_permission
    split
    · rfl
    · split
      · rfl
      · split
        · split
          · split
            · rfl
            · split
              · split <;> rfl
              · rfl
          · rfl
          · split
            · exact require_permission_scan_not_raised _ _ _
            · rfl
        · rfl
  · unfold protect_admins
    cases hgc : penv.getChat with
    | err e =>
      simp only [hgc]
      constructor
      · intro _
        exact Or.inl ⟨e, rfl⟩
      · intro _
        trivial
    | ok ct =>
      by_cases hpriv : ct = ChatType.privateChat
      · simp only [hgc, if_pos hpriv]
        constructor
        · intro h
          simp at h
        · rintro (⟨e, he⟩ | ⟨ct2, hct2, hnp2, e, he⟩)
          · simp at he
          · simp only [Res.ok.injEq] at hct2
            rw [← hct2] at hnp2
            exact absurd hpriv hnp2
      · simp only [hgc, if_neg hpriv]
        cases hex : penv.extract with
        | err e =>
          simp only [hex]
          constructor
          · intro _
            exact Or.inr ⟨ct, rfl, hpriv, e, rfl⟩
          · intro _
            trivial
        | ok opt =>
          cases opt with
          | none =>
            simp only [hex]
            constructor
            · intro h
              simp at h
            · rintro (⟨e, he⟩ | ⟨ct2, hct2, hnp2, e, he⟩)
              · simp at he
              · simp at he
          | some t =>
            simp only [hex]
            constructor
            · intro h
              exfalso
              by_cases h1 : t == invokerId
              · simp [h1] at h
              · by_cases h2 : check_admin_permissions penv.adminEnv t = true
                · simp [h1, h2] at h
                · simp [h1, h2] at h
            · rintro (⟨e, he⟩ | ⟨ct2, hct2, hnp2, e, he⟩)
              · simp at he
              · simp at he

/-- Witness for C4 (amended): with its chat lookup failing, `admin_only`
contains the failure (no propagation), and `protect_admins` on the same
failing lookup lets it escape. -/
theorem gate_exception_containment_witness :
    (admin_only
      ⟨Res.err ErrKind.other, Res.err ErrKind.other,
        ⟨Res.err ErrKind.other, Res.err ErrKind.other, Res.err ErrKind.other,
          Res.err ErrKind.other⟩, false⟩ 3).raised = false ∧
    (protect_admins c4EnvA 3).raised = true :=
  ⟨(gate_exception_containment
      ⟨Res.err ErrKind.other, Res.err ErrKind.other,
        ⟨Res.err ErrKind.other, Res.err ErrKind.other, Res.err ErrKind.other,
          Res.err ErrKind.other⟩, false⟩ 3 "ban_members"
      ⟨ChatType.group, Res.err ErrKind.other, Res.err ErrKind.other,
        Res.err ErrKind.other, 3⟩ c4EnvA 3).1,
   (gate_exception_containment
      ⟨Res.err ErrKind.other, Res.err ErrKind.other,
        ⟨Res.err ErrKind.other, Res.err ErrKind.other, Res.err ErrKind.other,
          Res.err ErrKind.other⟩, false⟩ 3 "ban_members"
      ⟨ChatType.group, Res.err ErrKind.other, Res.err ErrKind.other,
        Res.err ErrKind.other, 3⟩ c4EnvA 3).2.2.mpr
     (Or.inl ⟨ErrKind.other, rfl⟩)⟩

/-! ## Claim C5 -/

/-- Unfolding of the chunk comprehension on a non-empty text: the first
4000-unit segment, then the chunks of the remainder. -/
lemma splitChunks_of_ne_nil (l : List Char) (h : l ≠ []) :
    splitChunks l = l.take 4000 :: splitChunks (l.drop 4000) := by
  cases l with
  | nil => exact absurd rfl h
  | cons c rest => rw [splitChunks]

/-- The chunk comprehension on the empty text is empty. -/
lemma splitChunks_nil : splitChunks [] = [] := by
  rw [splitChunks]

/-- A non-empty text of at most 4000 units forms a single chunk. -/
lemma splitChunks_of_short (l : List Char) (h0 : l ≠ []) (h : l.length ≤ 4000) :
    splitChunks l = [l] := by
  rw [splitChunks_of_ne_nil l h0, List.take_of_length_le h, List.drop_eq_nil_of_le h,
    splitChunks_nil]

/-- Extracting response-segment bodies from a pure run of segment sends
recovers the segments. -/
lemma partBodies_map (l : List (List Char)) :
    partBodies (l.map GReply.part) = l := by
  induction l with
  | nil => rfl
  | cons b rest ih =>
    simp only [List.map_cons, partBodies, ih]

/-- C5: on any fully successful run of `gemini_command` (guard passed,
usage logged, non-empty prompt, interim reply sent, AI call succeeded with
response `text`, all sends and the delete succeeded), the bodies of the
response replies are exactly `responseReplies text`; a response shorter
than 4000 units yields exactly one response reply, and a response of
exactly 8001 units yields exactly three response replies whose bodies are
the consecutive segments of lengths 4000, 4000 and 1 in original
left-to-right order (their concatenation is the original text). -/
theorem gemini_response_chunking (env : GeminiEnv) (chatId : Int) (s : Finset Int)
    (text : List Char) (hni : chatId ∉ s) (hsu : env.saveUsageOk = true)
    (hp : geminiPrompt env ≠ []) (hw : env.workingOk = true)
    (hai : env.aiResult = Res.ok text) (hsend : env.sendFailsAt = none)
    (hdel : env.deleteOk = true) :
    partBodies (gemini_command env chatId s).replies = responseReplies text ∧
    (text.length < 4000 → (responseReplies text).length = 1) ∧
    (text.length = 8001 →
       responseReplies text =
         [text.take 4000, (text.drop 4000).take 4000, (text.drop 4000).drop 4000] ∧
       (responseReplies text).map List.length = [4000, 4000, 1] ∧
       (responseReplies text).flatten = text) := by
  refine ⟨?_, ?_, ?_⟩
  · have hrun : (gemini_command env chatId s).replies =
        GReply.working :: (responseReplies text).map GReply.part := by
      simp [gemini_command, hni, hsu, hp, hw, hai, hsend, geminiFinishSend, hdel]
    rw [hrun]
    exact partBodies_map (responseReplies text)
  · intro hlen
    unfold responseReplies
    rw [if_neg (by omega : ¬text.length > 4000)]
    rfl
  · intro hlen
    have h1 : text ≠ [] := by
      intro h
      rw [h] at hlen
      simp at hlen
    have hd1 : (text.drop 4000).length = 4001 := by
      rw [List.length_drop, hlen]
    have h2 : text.drop 4000 ≠ [] := by
      intro h
      rw [h] at hd1
      simp at hd1
    have hd2 : ((text.drop 4000).drop 4000).length = 1 := by
      rw [List.length_drop, hd1]
    have h3 : (text.drop 4000).drop 4000 ≠ [] := by
      intro h
      rw [h] at hd2
      simp at hd2
    have he : responseReplies text =
        [text.take 4000, (text.drop 4000).take 4000, (text.drop 4000).drop 4000] := by
      unfold responseReplies
      rw [if_pos (by omega : text.length > 4000)]
      rw [splitChunks_of_ne_nil text h1, splitChunks_of_ne_nil _ h2,
        splitChunks_of_short _ h3 (by omega)]
    refine ⟨he, ?_, ?_⟩
    · rw [he]
      simp only [List.map_cons, List.map_nil, List.length_take, hlen, hd1, hd2]
      norm_num
    · rw [he]
      simp only [List.flatten_cons, List.flatten_nil, List.append_nil]
      rw [List.take_append_drop, List.take_append_drop]

/-- Fully successful concrete run for the C5 witness: prompt `"hi"`, AI
response of 8001 repeated characters. -/
def c5Env : GeminiEnv :=
  ⟨true, "/gemini hi".toList, "bot".toList, true, Res.ok (List.replicate 8001 'a'),
    none, true, true⟩

/-- Witness for C5: on the concrete 8001-unit response the three response
replies have bodies of lengths 4000, 4000 and 1. -/
theorem gemini_response_chunking_witness :
    (responseReplies (List.replicate 8001 'a')).map List.length = [4000, 4000, 1] ∧
    partBodies (gemini_command c5Env 1 ∅).replies =
      responseReplies (List.replicate 8001 'a') :=
  ⟨((gemini_response_chunking c5Env 1 ∅ (List.replicate 8001 'a')
      (by simp) rfl (by decide) rfl rfl rfl rfl).2.2 (List.length_replicate 8001 'a')).2.1,
   (gemini_response_chunking c5Env 1 ∅ (List.replicate 8001 'a')
      (by simp) rfl (by decide) rfl rfl rfl rfl).1⟩

/-! ## Claims C1 and C2 -/

/-- Run of `gemini_command` in which the awaited `save_usage` call raises
(`chat.py` line 36 — after the `active_gemini_requests.add` of line 34 but
before the `try` of line 37). -/
def c1Env : GeminiEnv :=
  ⟨false, "/gemini hi".toList, "bot".toList, true, Res.ok "ok".toList, none, true, true⟩

/-- Fully succeeding run of `gemini_command` used to probe the guard after
the leaking run. -/
def c2Env : GeminiEnv :=
  ⟨true, "/gemini hi".toList, "bot".toList, true, Res.ok "ok".toList, none, true, true⟩

/-- C1: the guaranteed-release claim fails on the code.  An invocation that
passes the single-flight check and adds chat 5 to the Active-Request Set,
and whose usage-logging call then raises, exits with the exception
propagating (`raised = true`) and with 5 still in the set: `save_usage` is
awaited between the `add` and the `try`, so the `finally` that discards the
identifier never runs on this path. -/
theorem gemini_guard_leaks_on_save_usage_failure :
    (gemini_command c1Env 5 ∅).raised = true ∧
    (5 : Int) ∈ (gemini_command c1Env 5 ∅).state ∧
    (gemini_command c1Env 5 ∅).aiCalls = 0 := by
  decide

/-- C2: after a first invocation for chat 5 that completed with a failure
of the usage-logging call, the identifier is still in the Active-Request
Set, so a subsequent, fully well-behaved invocation for that chat is
rejected by the single-flight guard — it sends only the wait notice, issues
no AI backend call, and leaves the set unchanged — refuting the claim that
after any completed first invocation (success or failure) a subsequent
invocation proceeds past the guard. -/
theorem gemini_second_request_stays_blocked :
    (gemini_command c2Env 5 (gemini_command c1Env 5 ∅).state).replies =
      [GReply.waitNotice] ∧
    (gemini_command c2Env 5 (gemini_command c1Env 5 ∅).state).aiCalls = 0 ∧
    (gemini_command c2Env 5 (gemini_command c1Env 5 ∅).state).state =
      (gemini_command c1Env 5 ∅).state ∧
    (5 : Int) ∈ (gemini_command c2Env 5 (gemini_command c1Env 5 ∅).state).state := by
  decide
